import Mathlib

/-!
Verification development for the eShipz shipment-request normalization and
validation pipeline (`src/main.py`).  The Python source is shallowly embedded:

* Python `float` values are modelled as exact rationals (`ℚ`); Python's
  `round(x, 2)` (round-half-to-even) is modelled exactly on rationals by
  `pyRound2`.
* Python `str` is modelled as Lean `String`; `str.lower`, `str.strip`,
  `str.isdigit` and the regexes `\D` / `[1-9][0-9]{5}` are modelled over
  ASCII (all string data handled by the pipeline is ASCII).
* The fallible pincode-lookup collaborator (`lookup_pincode`, a network
  call that returns a city/state record or `None` on any failure) is
  modelled as an oracle parameter `String → Option PincodeInfo`.
* The orchestrator `create_shipment` returns rejection messages as strings;
  these are modelled by the inductive `Err`, one constructor per distinct
  rejection site, carrying the data interpolated into the message.
-/

/-! ### Python string primitives (ASCII model) -/

/-- `Char` list version of Python `s1 in s2` prefix step:
`listStartsWith hay needle` is true iff `needle` is a prefix of `hay`. -/
def listStartsWith : List Char → List Char → Bool
  | _, [] => true
  | [], _ :: _ => false
  | a :: as, b :: bs => a == b && listStartsWith as bs

/-- Python `needle in hay` (contiguous substring) on char lists. -/
def listHasSub (needle : List Char) : List Char → Bool
  | [] => listStartsWith [] needle
  | a :: as => listStartsWith (a :: as) needle || listHasSub needle as

/-- Python `needle in hay` for strings. -/
def pyIn (needle hay : String) : Bool :=
  listHasSub needle.data hay.data

/-- Python `str.lower()` (ASCII). -/
def pyLower (s : String) : String :=
  String.mk (s.data.map Char.toLower)

/-- Python `str.strip()`: remove leading and trailing whitespace. -/
def pyStrip (s : String) : String :=
  String.mk (((s.data.dropWhile Char.isWhitespace).reverse.dropWhile
    Char.isWhitespace).reverse)

/-- Python `re.sub(r"\D", "", s)`: keep only the (ASCII) digits of `s`. -/
def pyDigits (s : String) : String :=
  String.mk (s.data.filter Char.isDigit)

/-- Python `str.isdigit()` (ASCII): nonempty and every character a digit. -/
def pyIsDigit (s : String) : Bool :=
  !s.data.isEmpty && s.data.all Char.isDigit

/-- Python `str.startswith(p)` for strings. -/
def pyStartsWith (s p : String) : Bool :=
  listStartsWith s.data p.data

/-- Last `n` characters of a string (Python `s[-n:]` for `0 < n ≤ len s`). -/
def strTakeRight (s : String) (n : Nat) : String :=
  String.mk (s.data.drop (s.data.length - n))

/-- Drop the first `n` characters (Python `s[n:]`). -/
def strDrop (s : String) (n : Nat) : String :=
  String.mk (s.data.drop n)

/-- Python `s.split()` on a char list: split on whitespace runs, no empties. -/
def listWords : List Char → List (List Char)
  | [] => []
  | c :: cs =>
    if c.isWhitespace then listWords cs
    else
      match listWords cs with
      | [] => [[c]]
      | w :: ws =>
        match cs with
        | [] => [[c]]
        | d :: _ => if d.isWhitespace then [c] :: w :: ws else (c :: w) :: ws

/-- Python `" ".join(s.split())`: collapse internal whitespace runs. -/
def pyCollapseWs (s : String) : String :=
  String.intercalate " " ((listWords s.data).map String.mk)

/-! ### Python `round(x, 2)` on exact rationals -/

/-- Python `round` to an integer: round half to even (banker's rounding). -/
def roundHalfEven (q : ℚ) : ℤ :=
  if q - Int.floor q < 1/2 then Int.floor q
  else if 1/2 < q - Int.floor q then Int.floor q + 1
  else if Int.floor q % 2 = 0 then Int.floor q else Int.floor q + 1

/-- Python `round(x, 2)` modelled exactly on rationals. -/
def pyRound2 (q : ℚ) : ℚ :=
  (roundHalfEven (q * 100) : ℚ) / 100

/-! ### Lexicon tables (src/main.py lines 26-35, 56-148) -/

/-- `CARRIER_SLUG_MAP`, in declaration order (Python dicts iterate in
insertion order). -/
def CARRIER_SLUG_MAP : List (String × String) := [
  ("bluedart", "bluedart"),
  ("blue dart", "bluedart"),
  ("delhivery", "delhivery"),
  ("delhivery surface", "delhivery-surface"),
  ("dtdc", "dtdc"),
  ("ekart", "ekart"),
  ("xpressbees", "xpressbees"),
  ("amazon", "amazon-shipping")]

/-- First-match lookup in an association list; models Python `dict.get` here
because every duplicated key in the source tables carries the same value. -/
def assocLookup (m : List (String × String)) (k : String) : Option String :=
  (m.find? (fun p => p.1 == k)).map (fun p => p.2)

/-- `_get_slug_from_description` (src/main.py lines 37-53). -/
def getSlugFromDescription (description : String) : String :=
  if description = "" then "auto"
  else
    let descLower := pyStrip (pyLower description)
    match assocLookup CARRIER_SLUG_MAP descLower with
    | some slug => slug
    | none =>
      match CARRIER_SLUG_MAP.find? (fun p => pyIn p.1 descLower) with
      | some p => p.2
      | none => "auto"

def MAX_WEIGHT_KG : ℚ := 300
def MAX_DIM_CM : ℚ := 300
def VOLUMETRIC_DIVISOR : ℚ := 5000

/-- `RESIDENTIAL_KEYWORDS` (a Python set; only membership is used, so order
is irrelevant). -/
def RESIDENTIAL_KEYWORDS : List String :=
  ["home", "house", "flat", "apartment", "villa", "lane", "society"]

def BUSINESS_KEYWORDS : List String :=
  ["pvt", "ltd", "llp", "inc", "corp", "technologies", "enterprises"]
def CITY_STATE_MAP : List (String × String) := [
  ("chennai", "tamil nadu"),
  ("mumbai", "maharashtra"),
  ("bengaluru", "karnataka"),
  ("bangalore", "karnataka"),
  ("delhi", "delhi"),
  ("new delhi", "delhi"),
  ("kolkata", "west bengal"),
  ("hyderabad", "telangana"),
  ("pune", "maharashtra"),
  ("ahmedabad", "gujarat"),
  ("surat", "gujarat"),
  ("jaipur", "rajasthan"),
  ("lucknow", "uttar pradesh"),
  ("kanpur", "uttar pradesh"),
  ("nagpur", "maharashtra"),
  ("indore", "madhya pradesh"),
  ("thane", "maharashra"),
  ("bhopal", "madhya pradesh"),
  ("visakhapatnam", "andhra pradesh"),
  ("pimpri-chinchwad", "maharashtra"),
  ("patna", "bihar"),
  ("vadodara", "gujarat"),
  ("ghaziabad", "uttar pradesh"),
  ("ludhiana", "punjab"),
  ("agra", "uttar pradesh"),
  ("nashik", "maharashtra"),
  ("faridabad", "haryana"),
  ("meerut", "uttar pradesh"),
  ("rajkot", "gujarat"),
  ("kalyan-dombivali", "maharashtra"),
  ("vasai-virar", "maharashtra"),
  ("varanasi", "uttar pradesh"),
  ("srinagar", "jammu and kashmir"),
  ("aurangabad", "maharashtra"),
  ("dhanbad", "jharkhand"),
  ("amritsar", "punjab"),
  ("navi mumbai", "maharashtra"),
  ("allahabad", "uttar pradesh"),
  ("prayagraj", "uttar pradesh"),
  ("howrah", "west bengal"),
  ("ranchi", "jharkhand"),
  ("gwalior", "madhya pradesh"),
  ("jabalpur", "madhya pradesh"),
  ("coimbatore", "tamil nadu"),
  ("vijayawada", "andhra pradesh"),
  ("jodhpur", "rajasthan"),
  ("madurai", "tamil nadu"),
  ("raipur", "chhattisgarh"),
  ("kota", "rajasthan"),
  ("chandigarh", "chandigarh"),
  ("guwahati", "assam"),
  ("solapur", "maharashtra"),
  ("hubballi-dharwad", "karnataka"),
  ("bareilly", "uttar pradesh"),
  ("moradabad", "uttar pradesh"),
  ("mysore", "karnataka"),
  ("mysuru", "karnataka"),
  ("gurgaon", "haryana"),
  ("gurugram", "haryana"),
  ("aligarh", "uttar pradesh"),
  ("jalandhar", "punjab"),
  ("tiruchirappalli", "tamil nadu"),
  ("bhubaneswar", "odisha"),
  ("salem", "tamil nadu"),
  ("warangal", "telangana"),
  ("guntur", "andhra pradesh"),
  ("bhiwandi", "maharashtra"),
  ("saharanpur", "uttar pradesh"),
  ("gorakhpur", "uttar pradesh"),
  ("bikaner", "rajasthan"),
  ("amravati", "maharashtra"),
  ("noida", "uttar pradesh"),
  ("jamshedpur", "jharkhand"),
  ("bhilai", "chhattisgarh"),
  ("cuttack", "odisha"),
  ("firozabad", "uttar pradesh"),
  ("kochi", "kerala"),
  ("cochin", "kerala"),
  ("nellore", "andhra pradesh"),
  ("bhavnagar", "gujarat"),
  ("dehradun", "uttarakhand"),
  ("durgapur", "west bengal"),
  ("asansol", "west bengal"),
  ("rourkela", "odisha"),
  ("nanded", "maharashtra"),
  ("kolhapur", "maharashtra"),
  ("ajmer", "rajasthan"),
  ("akola", "maharashtra"),
  ("gulbarga", "karnataka"),
  ("jamnagar", "gujarat"),
  ("ujjain", "madhya pradesh"),
  ("loni", "uttar pradesh"),
  ("siliguri", "west bengal"),
  ("jhansi", "uttar pradesh"),
  ("ulhasnagar", "maharashtra"),
  ("jammu", "jammu and kashmir"),
  ("sangli-miraj", "maharashtra"),
  ("mangalore", "karnataka"),
  ("erode", "tamil nadu"),
  ("belgaum", "karnataka"),
  ("belagavi", "karnataka"),
  ("ambattur", "tamil nadu"),
  ("tirunelveli", "tamil nadu"),
  ("malegaon", "maharashtra"),
  ("gaya", "bihar"),
  ("jalgaon", "maharashtra"),
  ("udaipur", "rajasthan"),
  ("maheshtala", "west bengal"),
  ("tiruppur", "tamil nadu"),
  ("davanagere", "karnataka"),
  ("kozhikode", "kerala"),
  ("calicut", "kerala"),
  ("akola", "maharashtra"),
  ("kurnool", "andhra pradesh"),
  ("rajpur sonarpur", "west bengal"),
  ("rajahmundry", "andhra pradesh"),
  ("bokaro", "jharkhand"),
  ("south dumdum", "west bengal"),
  ("bellary", "karnataka"),
  ("patiala", "punjab"),
  ("gopalpur", "west bengal"),
  ("agartala", "tripura"),
  ("bhagalpur", "bihar"),
  ("muzaffarnagar", "uttar pradesh"),
  ("bhatpara", "west bengal"),
  ("panihati", "west bengal"),
  ("latur", "maharashtra"),
  ("dhule", "maharashtra"),
  ("rohtak", "haryana"),
  ("korba", "chhattisgarh"),
  ("bhilwara", "rajasthan"),
  ("brahmapur", "odisha"),
  ("berhampur", "odisha"),
  ("muzaffarpur", "bihar"),
  ("ahmednagar", "maharashtra"),
  ("mathura", "uttar pradesh"),
  ("kollam", "kerala"),
  ("avadi", "tamil nadu"),
  ("kadapa", "andhra pradesh"),
  ("kamarhati", "west bengal"),
  ("sambalpur", "odisha"),
  ("bilaspur", "chhattisgarh"),
  ("shahjahanpur", "uttar pradesh"),
  ("satara", "maharashtra"),
  ("bijapur", "karnataka"),
  ("rampur", "uttar pradesh"),
  ("shivamogga", "karnataka"),
  ("shimoga", "karnataka"),
  ("chandrapur", "maharashtra"),
  ("junagadh", "gujarat"),
  ("thrissur", "kerala"),
  ("alwar", "rajasthan"),
  ("bardhaman", "west bengal"),
  ("kulti", "west bengal"),
  ("kakinada", "andhra pradesh"),
  ("nizamabad", "telangana"),
  ("parbhani", "maharashtra"),
  ("tumkur", "karnataka"),
  ("khammam", "telangana"),
  ("ozhukarai", "puducherry"),
  ("bihar sharif", "bihar"),
  ("panipat", "haryana"),
  ("darbhanga", "bihar"),
  ("bally", "west bengal"),
  ("aizawl", "mizoram"),
  ("dewas", "madhya pradesh"),
  ("ichalkaranji", "maharashtra"),
  ("karnal", "haryana"),
  ("bathinda", "punjab"),
  ("jalna", "maharashtra"),
  ("eluru", "andhra pradesh"),
  ("kirari suleman nagar", "delhi"),
  ("barasat", "west bengal"),
  ("purnia", "bihar"),
  ("satna", "madhya pradesh"),
  ("mira-bhayandar", "maharashtra"),
  ("karimnagar", "telangana"),
  ("etawah", "uttar pradesh"),
  ("bharatpur", "rajasthan"),
  ("begusarai", "bihar"),
  ("new delhi", "delhi"),
  ("chhapra", "bihar"),
  ("kadapa", "andhra pradesh"),
  ("ramagundam", "telangana"),
  ("pali", "rajasthan"),
  ("satna", "madhya pradesh"),
  ("vizianagaram", "andhra pradesh"),
  ("katihar", "bihar"),
  ("hardwar", "uttarakhand"),
  ("haridwar", "uttarakhand"),
  ("sonipat", "haryana"),
  ("nagercoil", "tamil nadu"),
  ("thanjavur", "tamil nadu"),
  ("murwara", "madhya pradesh"),
  ("naihati", "west bengal"),
  ("sambhal", "uttar pradesh"),
  ("nadiad", "gujarat"),
  ("yamunanagar", "haryana"),
  ("english bazar", "west bengal"),
  ("unnao", "uttar pradesh"),
  ("secunderabad", "telangana"),
  ("margao", "goa"),
  ("vasco da gama", "goa"),
  ("porbandar", "gujarat"),
  ("anand", "gujarat"),
  ("ratlam", "madhya pradesh"),
  ("morbi", "gujarat"),
  ("pondicherry", "puducherry"),
  ("puducherry", "puducherry"),
  ("gandhidham", "gujarat"),
  ("veraval", "gujarat"),
  ("madras", "tamil nadu"),
  ("bombay", "maharashtra"),
  ("calcutta", "west bengal")]

def CITY_ALIASES : List (String × String) := [
  ("bangalore", "bengaluru"),
  ("bombay", "mumbai"),
  ("calcutta", "kolkata"),
  ("madras", "chennai"),
  ("mysore", "mysuru"),
  ("cochin", "kochi"),
  ("calicut", "kozhikode"),
  ("trivandrum", "thiruvananthapuram"),
  ("poona", "pune"),
  ("baroda", "vadodara"),
  ("allahabad", "prayagraj")]

/-! ### Geographic inference (src/main.py lines 150-186) -/

/-- Python truthiness filter on an optional string: `if state:` succeeds only
for a present, nonempty value. -/
def truthyOpt : Option String → Option String
  | some s => if s = "" then none else some s
  | none => none

/-- `infer_state_from_city` (src/main.py lines 150-186). -/
def infer_state_from_city (city : String) : Option String :=
  if city = "" then none
  else
    let norm0 := pyLower (pyStrip city)
    let norm1 := (norm0.replace "," "").replace "." ""
    let norm2 := pyCollapseWs norm1
    let norm :=
      match assocLookup CITY_ALIASES norm2 with
      | some a => a
      | none => norm2
    match truthyOpt (assocLookup CITY_STATE_MAP norm) with
    | some s => some s
    | none =>
      match truthyOpt (assocLookup CITY_STATE_MAP (norm.replace " " "-")) with
      | some s => some s
      | none =>
        match truthyOpt (assocLookup CITY_STATE_MAP (norm.replace "-" " ")) with
        | some s => some s
        | none => none

/-! ### Field normalizers and validators (src/main.py lines 188-252) -/

/-- Python `s[0] in allowed` guarded by nonemptiness. -/
def firstIn (s allowed : String) : Bool :=
  match s.data with
  | c :: _ => allowed.data.contains c
  | [] => false

/-- `normalize_phone` (src/main.py lines 188-197). -/
def normalize_phone (phone : String) : Option String :=
  if phone = "" then none
  else
    let digits := pyDigits phone
    let digits :=
      if pyStartsWith digits "91" = true ∧ digits.length = 12 then
        strDrop digits 2
      else digits
    if digits.length ≠ 10 ∨ firstIn digits "6789" = false then none
    else some digits

/-- `validate_pincode` (src/main.py lines 200-202):
`bool(pincode and re.fullmatch(r"[1-9][0-9]{5}", pincode))`. -/
def validate_pincode (pincode : String) : Bool :=
  pincode != "" &&
  (match pincode.data with
   | c :: rest => ('1' ≤ c && c ≤ '9') && rest.length == 5 && rest.all Char.isDigit
   | [] => false)

/-- The distinct rejection messages returned by the pipeline and its
validators, one constructor per `return`-a-message site, carrying the data
interpolated into the Python f-string. -/
inductive Err where
  | missingFields (fields : List String)
  | invalidShipperPhone (raw : String)
  | invalidConsigneePhone (raw : String)
  | invalidShipperPincode (raw : String)
  | invalidConsigneePincode (raw : String)
  | weightNotPositive
  | weightExceedsMax (w : ℚ)
  | dimNegative (name : String)
  | dimExceedsMax (name : String) (v : ℚ)
  | codInconsistent
  | invalidInvoiceDate (raw : String)
  | missingStates (parties : List (String × String))
  deriving DecidableEq

/-- `validate_parcel_dimensions` (src/main.py lines 205-216); the returned
message strings are modelled by `Err` constructors. -/
def validate_parcel_dimensions (weight length width height : ℚ) : Option Err :=
  if weight ≤ 0 then some .weightNotPositive
  else if weight > MAX_WEIGHT_KG then some (.weightExceedsMax weight)
  else if length < 0 then some (.dimNegative "Length")
  else if length > MAX_DIM_CM then some (.dimExceedsMax "Length" length)
  else if width < 0 then some (.dimNegative "Width")
  else if width > MAX_DIM_CM then some (.dimExceedsMax "Width" width)
  else if height < 0 then some (.dimNegative "Height")
  else if height > MAX_DIM_CM then some (.dimExceedsMax "Height" height)
  else none

/-- `compute_chargeable_weight` (src/main.py lines 219-222). -/
def compute_chargeable_weight (actual_kg l w h : ℚ) : ℚ :=
  let volumetric_kg := (l * w * h) / VOLUMETRIC_DIVISOR
  pyRound2 (max actual_kg volumetric_kg)

/-- `infer_service_type` (src/main.py lines 225-232). -/
def infer_service_type (weight_kg : ℚ) (carrier_slug : String) : String :=
  if carrier_slug = "delhivery" then
    if weight_kg > 10 then "delhivery-surface" else "delhivery"
  else if weight_kg > 30 then "surface"
  else "express"

/-- `infer_address_type` (src/main.py lines 235-242). -/
def infer_address_type (company street : String) : String :=
  let text := pyLower (company ++ " " ++ street)
  if BUSINESS_KEYWORDS.any (fun k => pyIn k text) then "business"
  else if RESIDENTIAL_KEYWORDS.any (fun k => pyIn k text) then "residential"
  else if company ≠ "" then "business" else "residential"

/-! ### Date normalizer (src/main.py lines 245-252)

`normalize_date` tries `strptime` with `%d-%m-%Y`, `%d/%m/%Y`, `%Y/%m/%d`,
`%d %b %Y` in order.  Python's `_strptime` matches `%d` with the regex
`3[01]|[12]\d|0[1-9]|[1-9]`, `%m` with `1[0-2]|0[1-9]|[1-9]`, `%Y` with four
digits, `%b` with a three-letter month abbreviation (case-insensitive),
whitespace in the format with one-or-more whitespace, and rejects leftover
input; `datetime` then rejects out-of-range days (and year 0). -/

def charVal (c : Char) : Nat := c.toNat - 48

/-- `%d`: regex `3[01]|[12]\d|0[1-9]|[1-9]` (greedy; backtracking can never
rescue a parse in the four formats used, since what follows a day is a
non-digit or end of input). -/
def parseDayField : List Char → Option (Nat × List Char)
  | [] => none
  | [c] => if '1' ≤ c ∧ c ≤ '9' then some (charVal c, []) else none
  | c1 :: c2 :: rest =>
    if c1 = '3' ∧ (c2 = '0' ∨ c2 = '1') then some (30 + charVal c2, rest)
    else if (c1 = '1' ∨ c1 = '2') ∧ c2.isDigit then
      some (10 * charVal c1 + charVal c2, rest)
    else if c1 = '0' ∧ ('1' ≤ c2 ∧ c2 ≤ '9') then some (charVal c2, rest)
    else if '1' ≤ c1 ∧ c1 ≤ '9' then some (charVal c1, c2 :: rest)
    else none

/-- `%m`: regex `1[0-2]|0[1-9]|[1-9]`. -/
def parseMonthField : List Char → Option (Nat × List Char)
  | [] => none
  | [c] => if '1' ≤ c ∧ c ≤ '9' then some (charVal c, []) else none
  | c1 :: c2 :: rest =>
    if c1 = '1' ∧ (c2 = '0' ∨ c2 = '1' ∨ c2 = '2') then
      some (10 + charVal c2, rest)
    else if c1 = '0' ∧ ('1' ≤ c2 ∧ c2 ≤ '9') then some (charVal c2, rest)
    else if '1' ≤ c1 ∧ c1 ≤ '9' then some (charVal c1, c2 :: rest)
    else none

/-- `%Y`: exactly four digits. -/
def parseYearField : List Char → Option (Nat × List Char)
  | a :: b :: c :: d :: rest =>
    if a.isDigit ∧ b.isDigit ∧ c.isDigit ∧ d.isDigit then
      some (1000 * charVal a + 100 * charVal b + 10 * charVal c + charVal d,
        rest)
    else none
  | _ => none

def MONTH_ABBREVS : List String :=
  ["jan", "feb", "mar", "apr", "may", "jun",
   "jul", "aug", "sep", "oct", "nov", "dec"]

/-- `%b`: three-letter month abbreviation, case-insensitive. -/
def parseAbbrevField : List Char → Option (Nat × List Char)
  | a :: b :: c :: rest =>
    match List.findIdx? (fun w => w == String.mk [a.toLower, b.toLower, c.toLower])
        MONTH_ABBREVS with
    | some i => some (i + 1, rest)
    | none => none
  | _ => none

/-- A literal separator character in the format. -/
def parseSepChar (sep : Char) : List Char → Option (List Char)
  | c :: rest => if c = sep then some rest else none
  | [] => none

/-- Whitespace in the format: `\s+`. -/
def parseWsField : List Char → Option (List Char)
  | c :: rest => if c.isWhitespace then some (rest.dropWhile Char.isWhitespace)
      else none
  | [] => none

def isLeapYear (y : Nat) : Bool :=
  y % 4 == 0 && (y % 100 != 0 || y % 400 == 0)

def daysInMonth (y m : Nat) : Nat :=
  if m = 2 then (if isLeapYear y then 29 else 28)
  else if m = 4 ∨ m = 6 ∨ m = 9 ∨ m = 11 then 30
  else 31

/-- `strptime(s, "%d-%m-%Y")`, yielding `(year, month, day)`. -/
def parseDMYhyphen (s : List Char) : Option (Nat × Nat × Nat) := do
  let (d, r1) ← parseDayField s
  let r2 ← parseSepChar '-' r1
  let (m, r3) ← parseMonthField r2
  let r4 ← parseSepChar '-' r3
  let (y, r5) ← parseYearField r4
  if r5 = [] then some (y, m, d) else none

/-- `strptime(s, "%d/%m/%Y")`. -/
def parseDMYslash (s : List Char) : Option (Nat × Nat × Nat) := do
  let (d, r1) ← parseDayField s
  let r2 ← parseSepChar '/' r1
  let (m, r3) ← parseMonthField r2
  let r4 ← parseSepChar '/' r3
  let (y, r5) ← parseYearField r4
  if r5 = [] then some (y, m, d) else none

/-- `strptime(s, "%Y/%m/%d")`. -/
def parseYMDslash (s : List Char) : Option (Nat × Nat × Nat) := do
  let (y, r1) ← parseYearField s
  let r2 ← parseSepChar '/' r1
  let (m, r3) ← parseMonthField r2
  let r4 ← parseSepChar '/' r3
  let (d, r5) ← parseDayField r4
  if r5 = [] then some (y, m, d) else none

/-- `strptime(s, "%d %b %Y")`. -/
def parseDbY (s : List Char) : Option (Nat × Nat × Nat) := do
  let (d, r1) ← parseDayField s
  let r2 ← parseWsField r1
  let (m, r3) ← parseAbbrevField r2
  let r4 ← parseWsField r3
  let (y, r5) ← parseYearField r4
  if r5 = [] then some (y, m, d) else none

def pad2 (n : Nat) : String :=
  if n < 10 then "0" ++ toString n else toString n

def pad4 (n : Nat) : String :=
  (if n < 10 then "000" else if n < 100 then "00"
   else if n < 1000 then "0" else "") ++ toString n

/-- `strftime("%Y-%m-%d")` on a validated date. -/
def formatISO (y m d : Nat) : String :=
  pad4 y ++ "-" ++ pad2 m ++ "-" ++ pad2 d

/-- Run one `strptime` format and apply `datetime`'s range validation (day
within the month, year at least 1); an invalid date behaves like a parse
failure (the `ValueError` is caught and the next format is tried). -/
def tryFormat (p : List Char → Option (Nat × Nat × Nat)) (s : String) :
    Option String :=
  match p s.data with
  | some (y, m, d) =>
    if 1 ≤ y ∧ 1 ≤ d ∧ d ≤ daysInMonth y m then some (formatISO y m d)
    else none
  | none => none

/-- `normalize_date` (src/main.py lines 245-252). -/
def normalize_date (date_str : String) : Option String :=
  match tryFormat parseDMYhyphen date_str with
  | some r => some r
  | none =>
    match tryFormat parseDMYslash date_str with
    | some r => some r
    | none =>
      match tryFormat parseYMDslash date_str with
      | some r => some r
      | none => tryFormat parseDbY date_str

/-! ### Pipeline data model (src/main.py lines 803-1122)

`create_shipment`'s keyword parameters become `ShipmentInput` (same names,
same defaults); the assembled `shipment_data` dict becomes `ShipmentRecord`
(constant fields such as `billing`, `purpose`, `order_source`, currency and
unit tags are not repeated per record since they never vary). -/

/-- Result of the pincode-lookup collaborator `lookup_pincode`: the returned
dict always carries `city` and `state` keys; any failure is `none`. -/
structure PincodeInfo where
  city : String
  state : String
  deriving DecidableEq

structure ShipmentInput where
  carrier_description : String := ""
  service_type : String := ""
  customer_reference : String := ""
  ship_from_name : String := ""
  ship_from_company : String := ""
  ship_from_street1 : String := ""
  ship_from_city : String := ""
  ship_from_state : String := ""
  ship_from_pincode : String := ""
  ship_from_phone : String := ""
  ship_from_email : String := ""
  ship_to_name : String := ""
  ship_to_company : String := ""
  ship_to_street1 : String := ""
  ship_to_city : String := ""
  ship_to_state : String := ""
  ship_to_pincode : String := ""
  ship_to_phone : String := ""
  parcel_description : String := ""
  parcel_weight_kg : ℚ := 0
  parcel_length_cm : ℚ := 0
  parcel_width_cm : ℚ := 0
  parcel_height_cm : ℚ := 0
  item_description : String := ""
  item_quantity : ℤ := 1
  item_price : ℚ := 0
  ship_from_street2 : String := ""
  ship_to_street2 : String := ""
  ship_to_email : String := ""
  is_cod : Bool := false
  cod_amount : ℚ := 0
  invoice_number : String := ""
  invoice_date : String := ""
  is_document : Bool := false
  vendor_id : String := ""
  ship_from_gstin : String := ""
  item_hsn_code : String := ""
  item_sku : String := ""
  deriving DecidableEq

/-- One `ship_from` / `ship_to` / `return_to` block; `addr_type` models the
JSON key `type`. -/
structure Party where
  contact_name : String
  company_name : String
  street1 : String
  street2 : String
  city : String
  state : String
  postal_code : String
  phone : String
  email : String
  country : String
  addr_type : String
  deriving DecidableEq

structure ShipmentRecord where
  slug : String
  service_type : Option String
  customer_reference : String
  parcel_contents : String
  is_document : Bool
  is_cod : Bool
  cod_amount : ℚ
  charged_weight : ℚ
  ship_from : Party
  ship_to : Party
  return_to : Party
  parcel_weight : ℚ
  parcel_length : ℚ
  parcel_width : ℚ
  parcel_height : ℚ
  item_description : String
  item_quantity : ℤ
  vendor_id : Option String
  invoice_number : Option String
  invoice_date : Option String
  gstin : Option String
  gst_invoice_value : Option ℚ
  deriving DecidableEq

/-- `create_shipment`'s terminal result: a rejection message or the
assembled record handed to the submission collaborator. -/
inductive Outcome where
  | rejected (e : Err)
  | assembled (r : ShipmentRecord)
  deriving DecidableEq

def Outcome.isAssembled : Outcome → Bool
  | .assembled _ => true
  | .rejected _ => false

def Outcome.postalCodes : Outcome → Option (String × String)
  | .assembled r => some (r.ship_from.postal_code, r.ship_to.postal_code)
  | .rejected _ => none

def Outcome.codAmount : Outcome → Option ℚ
  | .assembled r => some r.cod_amount
  | .rejected _ => none

def Outcome.chargedWeight : Outcome → Option ℚ
  | .assembled r => some r.charged_weight
  | .rejected _ => none

def Outcome.isCodRejection : Outcome → Bool
  | .rejected .codInconsistent => true
  | _ => false

/-! ### Pipeline stages (src/main.py lines 850-1110) -/

/-- Stage 2 (lines 853-866): required-field presence, in `REQUIRED_FIELDS`
declaration order; a float is missing iff it is 0 (Python truthiness). -/
def requiredMissing (inp : ShipmentInput) : List String :=
  (if inp.ship_from_name = "" then ["ship_from_name"] else []) ++
  (if inp.ship_from_pincode = "" then ["ship_from_pincode"] else []) ++
  (if inp.ship_from_phone = "" then ["ship_from_phone"] else []) ++
  (if inp.ship_to_name = "" then ["ship_to_name"] else []) ++
  (if inp.ship_to_pincode = "" then ["ship_to_pincode"] else []) ++
  (if inp.ship_to_phone = "" then ["ship_to_phone"] else []) ++
  (if inp.parcel_weight_kg = 0 then ["parcel_weight_kg"] else [])

/-- Stage 3 per phone (lines 868-890): if the digit-only form has at least
10 digits, take the last 10 as-is (no leading-digit check); otherwise fall
back to the strict `normalize_phone`. -/
def phoneStage (raw : String) : Option String :=
  let digits := pyDigits raw
  if 10 ≤ digits.length then some (strTakeRight digits 10)
  else normalize_phone raw

/-- Stage 4 inline pincode check (lines 892-897):
`pincode and len(pincode) == 6 and pincode.isdigit()`.  Note this is the
check `create_shipment` actually performs; it is weaker than
`validate_pincode` (no leading-digit requirement). -/
def pincodeInlineOk (p : String) : Bool :=
  p != "" && p.length == 6 && pyIsDigit p

/-- Stage 5 (lines 899-907): dimensions are validated only when at least one
was supplied; otherwise only the max-weight bound is checked. -/
def parcelStage (inp : ShipmentInput) : Option Err :=
  if 0 < inp.parcel_length_cm ∨ 0 < inp.parcel_width_cm ∨
      0 < inp.parcel_height_cm then
    validate_parcel_dimensions inp.parcel_weight_kg inp.parcel_length_cm
      inp.parcel_width_cm inp.parcel_height_cm
  else if inp.parcel_weight_kg > MAX_WEIGHT_KG then
    some (.weightExceedsMax inp.parcel_weight_kg)
  else none

/-- Stage 7 (lines 916-922): volumetric computation only with all three
dimensions strictly positive, otherwise the actual weight is used as-is. -/
def chargeableStage (inp : ShipmentInput) : ℚ :=
  if 0 < inp.parcel_length_cm ∧ 0 < inp.parcel_width_cm ∧
      0 < inp.parcel_height_cm then
    compute_chargeable_weight inp.parcel_weight_kg inp.parcel_length_cm
      inp.parcel_width_cm inp.parcel_height_cm
  else inp.parcel_weight_kg

/-- Stage 9 (lines 928-933): `none` when no invoice date was supplied,
`some` of the normalized date otherwise, error on an unparsable date. -/
def invoiceDateStage (invoice_date : String) : Except Err (Option String) :=
  if invoice_date = "" then .ok none
  else
    match normalize_date invoice_date with
    | some d => .ok (some d)
    | none => .error (.invalidInvoiceDate invoice_date)

/-- Stage 10 per party (lines 935-952): when city or state is missing, ask
the collaborator; a `none` reply (any failure) leaves both as they were. -/
def lookupStage (oracle : String → Option PincodeInfo)
    (pincode city state : String) : String × String :=
  if pincode ≠ "" ∧ (city = "" ∨ state = "") then
    match oracle pincode with
    | some info =>
      (if city = "" then info.city else city,
       if state = "" then info.state else state)
    | none => (city, state)
  else (city, state)

/-- Stage 11 per party (lines 955-969): local inference when the city is
present but the state still missing; on failure the `(role, city)` pair goes
onto the missing-states list. -/
def inferStateForParty (role city state : String) :
    String × Option (String × String) :=
  if city ≠ "" ∧ state = "" then
    match infer_state_from_city city with
    | some s => (s, none)
    | none => (state, some (role, city))
  else (state, none)

/-- Stages 11-12 (lines 955-976): run both parties (sender first), then
reject listing every party whose state is still unresolved. -/
def stateStage (fc fs tc ts : String) : Except Err (String × String) :=
  let fr := inferStateForParty "sender" fc fs
  let tr := inferStateForParty "consignee" tc ts
  match fr.2.toList ++ tr.2.toList with
  | [] => .ok (fr.1, tr.1)
  | missing => .error (.missingStates missing)

/-- Stage 13 per party (lines 978-988). -/
def addrTypeStage (company street1 : String) : String :=
  if company = "" ∧ street1 = "" then "residential"
  else infer_address_type company street1

def mkParty (name company street1 street2 city state postal phone email
    ptype : String) : Party :=
  { contact_name := name, company_name := company, street1 := street1,
    street2 := street2, city := city, state := state, postal_code := postal,
    phone := phone, email := email, country := "IN", addr_type := ptype }

/-- Stage 14 (lines 990-1110): the `shipment_data` dict. -/
def buildRecord (inp : ShipmentInput) (slug service_type fromPhone toPhone :
    String) (codAmount chargeable : ℚ) (dateOpt : Option String)
    (fc fs tc ts ftype ttype : String) : ShipmentRecord :=
  { slug := slug
    service_type := if service_type = "" then none else some service_type
    customer_reference := inp.customer_reference
    parcel_contents := inp.parcel_description
    is_document := inp.is_document
    is_cod := inp.is_cod
    cod_amount := if inp.is_cod then codAmount else 0
    charged_weight := chargeable
    ship_from := mkParty inp.ship_from_name inp.ship_from_company
      inp.ship_from_street1 inp.ship_from_street2 fc fs
      inp.ship_from_pincode fromPhone inp.ship_from_email ftype
    ship_to := mkParty inp.ship_to_name inp.ship_to_company
      inp.ship_to_street1 inp.ship_to_street2 tc ts
      inp.ship_to_pincode toPhone
      (if inp.ship_to_email ≠ "" then inp.ship_to_email
       else inp.ship_from_email) ttype
    return_to := mkParty inp.ship_from_name inp.ship_from_company
      inp.ship_from_street1 inp.ship_from_street2 fc fs
      inp.ship_from_pincode fromPhone inp.ship_from_email ftype
    parcel_weight := inp.parcel_weight_kg
    parcel_length := inp.parcel_length_cm
    parcel_width := inp.parcel_width_cm
    parcel_height := inp.parcel_height_cm
    item_description := inp.item_description
    item_quantity := inp.item_quantity
    vendor_id := if inp.vendor_id ≠ "" then some inp.vendor_id else none
    invoice_number :=
      if inp.invoice_number ≠ "" then some inp.invoice_number else none
    invoice_date := dateOpt
    gstin :=
      if inp.ship_from_gstin ≠ "" then some inp.ship_from_gstin else none
    gst_invoice_value :=
      if inp.invoice_number ≠ "" ∧ dateOpt.isSome then
        some (inp.item_price * (inp.item_quantity : ℚ))
      else none }

/-- Stages 6-14 after the COD consistency check (lines 913-1110): COD
zeroing, chargeable weight, service type, invoice date, lookups, state
inference, address classification, assembly. -/
def finishShipment (inp : ShipmentInput)
    (oracle : String → Option PincodeInfo)
    (slug fromPhone toPhone : String) : Outcome :=
  let codAmount :=
    if inp.is_cod = false ∧ 0 < inp.cod_amount then 0 else inp.cod_amount
  let service_type :=
    if inp.service_type = "" then
      infer_service_type inp.parcel_weight_kg slug
    else inp.service_type
  match invoiceDateStage inp.invoice_date with
  | .error e => .rejected e
  | .ok dateOpt =>
    let fcs := lookupStage oracle inp.ship_from_pincode inp.ship_from_city
      inp.ship_from_state
    let tcs := lookupStage oracle inp.ship_to_pincode inp.ship_to_city
      inp.ship_to_state
    match stateStage fcs.1 fcs.2 tcs.1 tcs.2 with
    | .error e => .rejected e
    | .ok sts =>
      .assembled (buildRecord inp slug service_type fromPhone toPhone
        codAmount (chargeableStage inp) dateOpt fcs.1 sts.1 tcs.1 sts.2
        (addrTypeStage inp.ship_from_company inp.ship_from_street1)
        (addrTypeStage inp.ship_to_company inp.ship_to_street1))

/-- `create_shipment` (src/main.py lines 803-1110), up to the hand-off of
the assembled record to the submission collaborator. -/
def createShipment (inp : ShipmentInput)
    (oracle : String → Option PincodeInfo) : Outcome :=
  let slug := getSlugFromDescription inp.carrier_description
  if requiredMissing inp ≠ [] then
    .rejected (.missingFields (requiredMissing inp))
  else
    match phoneStage inp.ship_from_phone with
    | none => .rejected (.invalidShipperPhone inp.ship_from_phone)
    | some fromPhone =>
      match phoneStage inp.ship_to_phone with
      | none => .rejected (.invalidConsigneePhone inp.ship_to_phone)
      | some toPhone =>
        if pincodeInlineOk inp.ship_from_pincode = false then
          .rejected (.invalidShipperPincode inp.ship_from_pincode)
        else if pincodeInlineOk inp.ship_to_pincode = false then
          .rejected (.invalidConsigneePincode inp.ship_to_pincode)
        else
          match parcelStage inp with
          | some e => .rejected e
          | none =>
            if inp.is_cod = true ∧ inp.cod_amount ≤ 0 then
              .rejected .codInconsistent
            else finishShipment inp oracle slug fromPhone toPhone

/-! ### Spec-side definitions for refinement claims -/

/-- The §4.1 carrier-resolution algorithm exactly as the spec words it:
lowercase and trim the input; exact-match against the lexicon; on miss return
the slug of the first declared key occurring as a substring; on total miss or
empty input return the sentinel "auto". -/
def resolveCarrierSpec (description : String) : String :=
  if pyStrip (pyLower description) = "" then "auto"
  else
    match assocLookup CARRIER_SLUG_MAP (pyStrip (pyLower description)) with
    | some slug => slug
    | none =>
      match CARRIER_SLUG_MAP.find?
          (fun p => pyIn p.1 (pyStrip (pyLower description))) with
      | some p => p.2
      | none => "auto"

/-- The §4.2 phone-normalization algorithm exactly as the spec words it:
strip all non-digit characters; if the result is 12 digits and begins with
"91", drop the prefix; accept only a 10-digit result whose first digit is in
6-9. -/
def normalizePhoneSpec (raw : String) : Option String :=
  if (if (pyDigits raw).length = 12 ∧ pyStartsWith (pyDigits raw) "91" = true
      then strDrop (pyDigits raw) 2 else pyDigits raw).length = 10 ∧
      firstIn (if (pyDigits raw).length = 12 ∧
          pyStartsWith (pyDigits raw) "91" = true
        then strDrop (pyDigits raw) 2 else pyDigits raw) "6789" = true then
    some (if (pyDigits raw).length = 12 ∧
        pyStartsWith (pyDigits raw) "91" = true
      then strDrop (pyDigits raw) 2 else pyDigits raw)
  else none

/-! ### Concrete inputs and oracles used by witnesses and counterexamples -/

/-- A collaborator that always fails (every lookup degrades to no data). -/
def noOracle : String → Option PincodeInfo := fun _ => none

/-- A collaborator that knows one pincode not used by `baseInput`. -/
def otherOracle : String → Option PincodeInfo := fun p =>
  if p = "999999" then some { city := "Foo", state := "Bar" } else none

/-- A fully valid request: every validation stage passes and the pipeline
assembles a record without consulting the collaborator. -/
def baseInput : ShipmentInput := {
  ship_from_name := "Asha", ship_from_pincode := "600001",
  ship_from_phone := "9876543210", ship_from_city := "Chennai",
  ship_from_state := "tamil nadu",
  ship_to_name := "Ben", ship_to_pincode := "110001",
  ship_to_phone := "9123456789", ship_to_city := "Delhi",
  ship_to_state := "delhi",
  parcel_weight_kg := 2, service_type := "express" }

/-- `baseInput` with a shipper pincode that has a leading zero. -/
def leadingZeroInput : ShipmentInput :=
  { baseInput with ship_from_pincode := "012345" }

/-- `baseInput` with a shipper pincode that is too short. -/
def shortPinInput : ShipmentInput :=
  { baseInput with ship_from_pincode := "12345" }

/-- `baseInput` with a valid shipper pincode but a too-short consignee
pincode. -/
def shortToPinInput : ShipmentInput :=
  { baseInput with ship_to_pincode := "11000" }

/-- `baseInput` with COD requested but a zero amount. -/
def codOnZeroInput : ShipmentInput :=
  { baseInput with is_cod := true, cod_amount := 0 }

/-- `baseInput` with COD not requested but a stray positive amount. -/
def codOffInput : ShipmentInput :=
  { baseInput with cod_amount := 500 }

/-- `baseInput` with a negative parcel weight and no dimensions. -/
def negWeightInput : ShipmentInput :=
  { baseInput with parcel_weight_kg := -5 }

/-! ### Rounding lemmas -/

/-- Rounding half-to-even never moves a value down by more than one half. -/
theorem roundHalfEven_ge (q : ℚ) : q - 1/2 ≤ (roundHalfEven q : ℚ) := by
  have hle := Int.floor_le q
  have hlt := Int.lt_floor_add_one q
  unfold roundHalfEven
  split
  · linarith
  · rename_i h
    rw [not_lt] at h
    split
    · push_cast
      linarith
    · rename_i h2
      rw [not_lt] at h2
      split
      · linarith
      · push_cast
        linarith

/-- Two-decimal Python rounding never moves a value down by more than
`0.005`. -/
theorem pyRound2_ge (q : ℚ) : q - 1/200 ≤ pyRound2 q := by
  unfold pyRound2
  linarith [roundHalfEven_ge (q * 100)]

/-- Evaluation rule for `roundHalfEven` in the round-down case. -/
theorem roundHalfEven_eq_of (q : ℚ) (n : ℤ) (h1 : (n : ℚ) ≤ q)
    (h2 : q < (n : ℚ) + 1) (h3 : q - (n : ℚ) < 1/2) : roundHalfEven q = n := by
  have hf : Int.floor q = n := by
    rw [Int.floor_eq_iff]
    constructor
    · exact h1
    · exact h2
  unfold roundHalfEven
  rw [hf, if_pos h3]

/-! ### Claim C2 -/

/-- C2, counterexample: with divisor 5000 and all dimensions 50 cm, the code
returns a chargeable weight of 25.0, not the 50.0 the claim states. -/
theorem C2_claim_counterexample :
    compute_chargeable_weight 2 50 50 50 ≠ 50 := by
  have hv : ((50 : ℚ) * 50 * 50) / VOLUMETRIC_DIVISOR = 25 := by
    norm_num [VOLUMETRIC_DIVISOR]
  have hr : roundHalfEven ((25 : ℚ) * 100) = 2500 := by
    apply roundHalfEven_eq_of <;> norm_num
  unfold compute_chargeable_weight
  dsimp only
  rw [hv, max_eq_right (by norm_num : (2 : ℚ) ≤ 25)]
  unfold pyRound2
  rw [hr]
  norm_num

/-- C2, amended: for actual weight 2 kg and all three dimensions 50 cm the
volumetric weight is 50·50·50/5000 = 25 kg and
`compute_chargeable_weight(2, 50, 50, 50)` returns 25.0 (the higher of 2 and
25, rounded to two decimals). -/
theorem C2_chargeable_weight_example :
    (50 * 50 * 50 : ℚ) / VOLUMETRIC_DIVISOR = 25 ∧
    compute_chargeable_weight 2 50 50 50 = 25 := by
  have hv : ((50 : ℚ) * 50 * 50) / VOLUMETRIC_DIVISOR = 25 := by
    norm_num [VOLUMETRIC_DIVISOR]
  have hr : roundHalfEven ((25 : ℚ) * 100) = 2500 := by
    apply roundHalfEven_eq_of <;> norm_num
  refine ⟨hv, ?_⟩
  unfold compute_chargeable_weight
  dsimp only
  rw [hv, max_eq_right (by norm_num : (2 : ℚ) ≤ 25)]
  unfold pyRound2
  rw [hr]
  norm_num

/-! ### Claim C3 -/

/-- C3, counterexample: `compute_chargeable_weight` is not always ≥ the
actual weight: at actual weight 1.004 kg (= 251/250) and no dimensions the
two-decimal rounding returns 1.0 < 1.004. -/
theorem C3_claim_counterexample :
    ¬ (251/250 : ℚ) ≤ compute_chargeable_weight (251/250) 0 0 0 := by
  have hmax : max (251/250 : ℚ) ((0 * 0 * 0) / VOLUMETRIC_DIVISOR) =
      251/250 := by
    rw [max_eq_left]
    norm_num [VOLUMETRIC_DIVISOR]
  have hr : roundHalfEven ((251/250 : ℚ) * 100) = 100 := by
    apply roundHalfEven_eq_of <;> norm_num
  unfold compute_chargeable_weight
  dsimp only
  rw [hmax]
  unfold pyRound2
  rw [hr]
  norm_num

/-- C3, amended: `compute_chargeable_weight` is deterministic (re-evaluation
on the same inputs yields the same value), and its result is always at least
the actual weight minus 0.005 — the final rounding to two decimals can dip
below the actual weight, but never by 0.005 or more. -/
theorem C3_chargeable_weight_bounds (a l w h : ℚ) :
    compute_chargeable_weight a l w h = compute_chargeable_weight a l w h ∧
    a - 1/200 ≤ compute_chargeable_weight a l w h := by
  refine ⟨rfl, ?_⟩
  unfold compute_chargeable_weight
  have hm : a ≤ max a ((l * w * h) / VOLUMETRIC_DIVISOR) := le_max_left _ _
  linarith [pyRound2_ge (max a ((l * w * h) / VOLUMETRIC_DIVISOR))]

/-! ### Inversion: what holds of every assembled record -/

/-- If `create_shipment` assembles a record, every validation stage passed on
the way: both pincodes satisfied the inline 6-digit check, the record carries
the input pincodes verbatim, its COD amount is the input amount when COD was
requested and 0 otherwise, its charged weight is the stage-7 value, and the
COD consistency check did not fire. -/
theorem createShipment_assembled_inv (inp : ShipmentInput)
    (o : String → Option PincodeInfo) (r : ShipmentRecord)
    (h : createShipment inp o = .assembled r) :
    pincodeInlineOk inp.ship_from_pincode = true ∧
    pincodeInlineOk inp.ship_to_pincode = true ∧
    r.ship_from.postal_code = inp.ship_from_pincode ∧
    r.ship_to.postal_code = inp.ship_to_pincode ∧
    r.cod_amount = (if inp.is_cod = true then inp.cod_amount else 0) ∧
    r.charged_weight = chargeableStage inp ∧
    ¬(inp.is_cod = true ∧ inp.cod_amount ≤ 0) := by
  simp only [createShipment] at h
  split at h
  · simp at h
  · split at h
    · simp at h
    · split at h
      · simp at h
      · split at h
        · simp at h
        · split at h
          · simp at h
          · rename_i fp hfp tp htp hpinF hpinT
            split at h
            · simp at h
            · split at h
              · simp at h
              · rename_i hparcel hcod
                simp only [finishShipment] at h
                split at h
                · simp at h
                · split at h
                  · simp at h
                  · rename_i dateOpt hdate sts hstate
                    rw [Outcome.assembled.injEq] at h
                    subst h
                    rw [Bool.not_eq_false] at hpinF hpinT
                    refine ⟨hpinF, hpinT, ?_, ?_, ?_, ?_, hcod⟩
                    · simp [buildRecord, mkParty]
                    · simp [buildRecord, mkParty]
                    · cases hb : inp.is_cod <;> simp [buildRecord, hb]
                    · simp [buildRecord]

/-! ### Claim C1 -/

/-- C1, counterexample: the pincode stage of `create_shipment` does not
enforce the leading-digit rule.  The input whose shipper pincode is
"012345" (leading zero, so `validate_pincode` rejects it) is assembled, and
the assembled record carries that postal code, which does not match
`[1-9][0-9]{5}`. -/
theorem C1_claim_counterexample :
    (createShipment leadingZeroInput noOracle).isAssembled = true ∧
    (createShipment leadingZeroInput noOracle).postalCodes =
      some ("012345", "110001") ∧
    validate_pincode "012345" = false := by decide

/-- C1, amended: the pincode stage rejects with an invalid-pincode message
unless each of the two postal codes passes the inline check — exactly 6
characters, all digits, leading zero permitted (`validate_pincode`'s
first-digit 1-9 rule is not applied; that function is never called by
`create_shipment`); consequently every assembled record carries the two
input postal codes verbatim, each exactly 6 digits but not necessarily
matching `[1-9][0-9]{5}`. -/
theorem C1_pincode_stage (inp : ShipmentInput)
    (o : String → Option PincodeInfo) :
    (requiredMissing inp = [] →
      (phoneStage inp.ship_from_phone).isSome = true →
      (phoneStage inp.ship_to_phone).isSome = true →
      pincodeInlineOk inp.ship_from_pincode = false →
      createShipment inp o =
        .rejected (.invalidShipperPincode inp.ship_from_pincode)) ∧
    (requiredMissing inp = [] →
      (phoneStage inp.ship_from_phone).isSome = true →
      (phoneStage inp.ship_to_phone).isSome = true →
      pincodeInlineOk inp.ship_from_pincode = true →
      pincodeInlineOk inp.ship_to_pincode = false →
      createShipment inp o =
        .rejected (.invalidConsigneePincode inp.ship_to_pincode)) ∧
    ((createShipment inp o).isAssembled = true →
      pincodeInlineOk inp.ship_from_pincode = true ∧
      pincodeInlineOk inp.ship_to_pincode = true ∧
      (createShipment inp o).postalCodes =
        some (inp.ship_from_pincode, inp.ship_to_pincode)) := by
  refine ⟨?_, ?_, ?_⟩
  · intro hreq hf ht hpin
    obtain ⟨fp, hfp⟩ := Option.isSome_iff_exists.mp hf
    obtain ⟨tp, htp⟩ := Option.isSome_iff_exists.mp ht
    simp only [createShipment]
    rw [if_neg (by simp [hreq]), hfp, htp]
    dsimp only
    rw [if_pos hpin]
  · intro hreq hf ht hpinF hpinT
    obtain ⟨fp, hfp⟩ := Option.isSome_iff_exists.mp hf
    obtain ⟨tp, htp⟩ := Option.isSome_iff_exists.mp ht
    simp only [createShipment]
    rw [if_neg (by simp [hreq]), hfp, htp]
    dsimp only
    rw [if_neg (by simp [hpinF]), if_pos hpinT]
  · intro h
    cases hc : createShipment inp o with
    | rejected e => rw [hc] at h; simp [Outcome.isAssembled] at h
    | assembled r =>
      obtain ⟨h1, h2, h3, h4, -, -, -⟩ :=
        createShipment_assembled_inv inp o r hc
      refine ⟨h1, h2, ?_⟩
      simp [Outcome.postalCodes, h3, h4]

/-- Witness for `C1_pincode_stage`: the shipper-rejection direction at a
5-digit shipper pincode, the consignee-rejection direction at a 5-digit
consignee pincode, and the assembled direction at `baseInput`. -/
theorem C1_pincode_stage_witness :
    createShipment shortPinInput noOracle =
      .rejected (.invalidShipperPincode shortPinInput.ship_from_pincode) ∧
    createShipment shortToPinInput noOracle =
      .rejected (.invalidConsigneePincode shortToPinInput.ship_to_pincode) ∧
    (pincodeInlineOk baseInput.ship_from_pincode = true ∧
     pincodeInlineOk baseInput.ship_to_pincode = true ∧
     (createShipment baseInput noOracle).postalCodes =
       some (baseInput.ship_from_pincode, baseInput.ship_to_pincode)) :=
  ⟨(C1_pincode_stage shortPinInput noOracle).1 (by decide) (by decide)
      (by decide) (by decide),
   (C1_pincode_stage shortToPinInput noOracle).2.1 (by decide) (by decide)
      (by decide) (by decide) (by decide),
   (C1_pincode_stage baseInput noOracle).2.2 (by decide)⟩

/-! ### Claim C4 -/

/-- C4: in `create_shipment`'s phone stage, any phone whose digit-only form
has at least 10 digits is accepted as its last 10 digits with no
leading-digit check, and the strict `normalize_phone` is consulted only when
the digit-only form is shorter than 10. -/
theorem C4_phone_leniency (raw : String) :
    (10 ≤ (pyDigits raw).length →
      phoneStage raw = some (strTakeRight (pyDigits raw) 10)) ∧
    ((pyDigits raw).length < 10 → phoneStage raw = normalize_phone raw) := by
  constructor
  · intro h
    unfold phoneStage
    dsimp only
    rw [if_pos h]
  · intro h
    unfold phoneStage
    dsimp only
    rw [if_neg (by omega)]

/-- Witness for `C4_phone_leniency`: a 12-digit number whose last 10 digits
start with 0 (the strict normalizer would reject it) goes through the
lenient path; a 5-digit number falls back to `normalize_phone`. -/
theorem C4_phone_leniency_witness :
    phoneStage "+91 05555 12345" =
      some (strTakeRight (pyDigits "+91 05555 12345") 10) ∧
    phoneStage "12345" = normalize_phone "12345" :=
  ⟨(C4_phone_leniency "+91 05555 12345").1 (by decide),
   (C4_phone_leniency "12345").2 (by decide)⟩

/-! ### Claim C5 -/

/-- The acceptance step shared by `normalize_phone` and its spec form: the
source rejects on `len ≠ 10 or first not in 6789`, the spec accepts on
`len = 10 and first in 6789`; the two are complementary. -/
theorem phoneAcceptStep (d : String) :
    (if d.length ≠ 10 ∨ firstIn d "6789" = false then none else some d) =
    (if d.length = 10 ∧ firstIn d "6789" = true then some d else none) := by
  rcases Bool.eq_false_or_eq_true (firstIn d "6789") with hf | hf <;>
    by_cases hl : d.length = 10 <;> simp [hf, hl]

/-- C5: `normalize_phone` agrees pointwise with the spec's §4.2 algorithm —
strip non-digits, drop a leading "91" only from an exactly-12-digit string,
accept only 10 digits starting in 6-9 — and the two spec examples hold. -/
theorem C5_normalize_phone (raw : String) :
    normalize_phone raw = normalizePhoneSpec raw ∧
    normalize_phone "+91 98765 43210" = some "9876543210" ∧
    normalize_phone "12345" = none := by
  refine ⟨?_, by decide, by decide⟩
  by_cases hr : raw = ""
  · subst hr; decide
  · unfold normalize_phone normalizePhoneSpec
    rw [if_neg hr]
    dsimp only
    have hsw : (if pyStartsWith (pyDigits raw) "91" = true ∧
          (pyDigits raw).length = 12 then strDrop (pyDigits raw) 2
        else pyDigits raw) =
        (if (pyDigits raw).length = 12 ∧
            pyStartsWith (pyDigits raw) "91" = true then
          strDrop (pyDigits raw) 2
        else pyDigits raw) := if_congr and_comm rfl rfl
    rw [hsw]
    exact phoneAcceptStep _

/-- Witness for `C5_normalize_phone` at a concrete phone string. -/
theorem C5_normalize_phone_witness :
    normalize_phone "+91 98765 43210" =
      normalizePhoneSpec "+91 98765 43210" ∧
    normalize_phone "12345" = none :=
  ⟨(C5_normalize_phone "+91 98765 43210").1,
   (C5_normalize_phone "12345").2.2⟩

/-! ### Claim C6 -/

/-- C6: the chargeable-weight stage computes `compute_chargeable_weight`
exactly when all three dimensions are strictly positive; with any dimension
zero/unset the actual weight is used unchanged; and whatever record the
pipeline assembles carries that stage's value as its charged weight. -/
theorem C6_chargeable_policy (inp : ShipmentInput)
    (o : String → Option PincodeInfo) :
    ((inp.parcel_length_cm = 0 ∨ inp.parcel_width_cm = 0 ∨
        inp.parcel_height_cm = 0) →
      chargeableStage inp = inp.parcel_weight_kg) ∧
    ((0 < inp.parcel_length_cm ∧ 0 < inp.parcel_width_cm ∧
        0 < inp.parcel_height_cm) →
      chargeableStage inp = compute_chargeable_weight inp.parcel_weight_kg
        inp.parcel_length_cm inp.parcel_width_cm inp.parcel_height_cm) ∧
    (∀ q, (createShipment inp o).chargedWeight = some q →
      q = chargeableStage inp) := by
  refine ⟨?_, ?_, ?_⟩
  · intro h
    unfold chargeableStage
    rw [if_neg]
    rintro ⟨hl, hw, hh⟩
    rcases h with h | h | h
    · rw [h] at hl; exact lt_irrefl 0 hl
    · rw [h] at hw; exact lt_irrefl 0 hw
    · rw [h] at hh; exact lt_irrefl 0 hh
  · intro h
    unfold chargeableStage
    rw [if_pos h]
  · intro q hq
    cases hc : createShipment inp o with
    | rejected e => rw [hc] at hq; simp [Outcome.chargedWeight] at hq
    | assembled r =>
      obtain ⟨-, -, -, -, -, h6, -⟩ := createShipment_assembled_inv inp o r hc
      rw [hc] at hq
      simp only [Outcome.chargedWeight, Option.some.injEq] at hq
      rw [← hq, h6]

/-- Witness for `C6_chargeable_policy`: `baseInput` has no dimensions, so
its chargeable weight is the actual weight, and the assembled record carries
it. -/
theorem C6_chargeable_policy_witness :
    chargeableStage baseInput = baseInput.parcel_weight_kg ∧
    (2 : ℚ) = chargeableStage baseInput :=
  ⟨(C6_chargeable_policy baseInput noOracle).1 (Or.inl (by decide)),
   (C6_chargeable_policy baseInput noOracle).2.2 2 (by decide)⟩

/-! ### Claim C7 -/

/-- The parcel stage never produces the COD-inconsistency rejection. -/
theorem parcelStage_ne_cod (inp : ShipmentInput) (e : Err)
    (h : parcelStage inp = some e) : e ≠ .codInconsistent := by
  unfold parcelStage validate_parcel_dimensions at h
  repeat' split at h
  all_goals cases h
  all_goals simp

/-- The invoice-date stage only ever rejects with the invalid-date error. -/
theorem invoiceDateStage_err (s : String) (e : Err)
    (h : invoiceDateStage s = .error e) : e = .invalidInvoiceDate s := by
  unfold invoiceDateStage at h
  split at h
  · simp at h
  · split at h <;> simp_all

/-- The state stage only ever rejects with a missing-states error. -/
theorem stateStage_err (fc fs tc ts : String) (e : Err)
    (h : stateStage fc fs tc ts = .error e) :
    ∃ m, e = .missingStates m := by
  simp only [stateStage] at h
  split at h
  · simp at h
  · rw [Except.error.injEq] at h
    exact ⟨_, h.symm⟩

/-- When COD is not requested, the pipeline never produces the
COD-inconsistency rejection. -/
theorem no_cod_rejection (inp : ShipmentInput)
    (o : String → Option PincodeInfo) (hcod : inp.is_cod = false) :
    createShipment inp o ≠ .rejected .codInconsistent := by
  intro h
  simp only [createShipment] at h
  split at h
  · simp at h
  · split at h
    · simp at h
    · split at h
      · simp at h
      · split at h
        · simp at h
        · split at h
          · simp at h
          · split at h
            · rename_i e hparc
              rw [Outcome.rejected.injEq] at h
              exact parcelStage_ne_cod inp e hparc h
            · split at h
              · rename_i hc
                simp [hcod] at hc
              · simp only [finishShipment] at h
                split at h
                · rename_i e hdate
                  rw [Outcome.rejected.injEq] at h
                  rw [invoiceDateStage_err _ e hdate] at h
                  simp at h
                · split at h
                  · rename_i e hstate
                    rw [Outcome.rejected.injEq] at h
                    obtain ⟨m, hm⟩ := stateStage_err _ _ _ _ e hstate
                    rw [hm] at h
                    simp at h
                  · simp at h

/-- C7: if COD is requested with a non-positive amount the pipeline never
assembles a record (the COD stage, or an earlier one, rejects); if COD is
not requested, the pipeline never emits the COD rejection and any assembled
record carries a `collect_on_delivery` amount of 0, whatever stray amount
was supplied. -/
theorem C7_cod_consistency (inp : ShipmentInput)
    (o : String → Option PincodeInfo) :
    (inp.is_cod = true → inp.cod_amount ≤ 0 →
      (createShipment inp o).isAssembled = false) ∧
    (inp.is_cod = false →
      (createShipment inp o).isCodRejection = false ∧
      ∀ q, (createShipment inp o).codAmount = some q → q = 0) := by
  constructor
  · intro h1 h2
    cases hc : createShipment inp o with
    | rejected e => rfl
    | assembled r =>
      obtain ⟨-, -, -, -, -, -, h7⟩ := createShipment_assembled_inv inp o r hc
      exact absurd ⟨h1, h2⟩ h7
  · intro hcod
    constructor
    · cases hc : createShipment inp o with
      | rejected e =>
        have hne := no_cod_rejection inp o hcod
        rw [hc] at hne
        cases e <;> first | rfl | exact absurd rfl hne
      | assembled r => rfl
    · intro q hq
      cases hc : createShipment inp o with
      | rejected e => rw [hc] at hq; simp [Outcome.codAmount] at hq
      | assembled r =>
        obtain ⟨-, -, -, -, h5, -, -⟩ :=
          createShipment_assembled_inv inp o r hc
        rw [hc] at hq
        simp only [Outcome.codAmount, Option.some.injEq] at hq
        rw [← hq, h5, hcod]
        simp

/-- Witness for `C7_cod_consistency`: COD enabled with amount 0 is never
assembled; COD disabled with a stray amount of 500 is not COD-rejected and
assembles with amount 0. -/
theorem C7_cod_consistency_witness :
    (createShipment codOnZeroInput noOracle).isAssembled = false ∧
    (createShipment codOffInput noOracle).isCodRejection = false ∧
    (createShipment codOffInput noOracle).codAmount = some 0 :=
  ⟨(C7_cod_consistency codOnZeroInput noOracle).1 rfl (by decide),
   ((C7_cod_consistency codOffInput noOracle).2 rfl).1,
   by decide⟩

/-! ### Claim C8 -/

/-- C8: `_get_slug_from_description` agrees pointwise with the spec's §4.1
algorithm — lowercase and trim, exact lexicon match, else first declared key
occurring as a substring, else the sentinel "auto" (also on empty input) —
and the two spec examples hold.  It returns a string in every case, never an
error. -/
theorem C8_resolve_carrier :
    (∀ d, getSlugFromDescription d = resolveCarrierSpec d) ∧
    getSlugFromDescription "ship via BlueDart express" = "bluedart" ∧
    getSlugFromDescription "" = "auto" := by
  refine ⟨?_, by decide, by decide⟩
  intro d
  by_cases hd : d = ""
  · subst hd; decide
  · unfold getSlugFromDescription resolveCarrierSpec
    rw [if_neg hd]
    dsimp only
    by_cases ht : pyStrip (pyLower d) = ""
    · rw [ht, if_pos rfl]
      decide
    · rw [if_neg ht]

/-! ### Claim C9 -/

/-- The two city/state lookups depend on the collaborator only through its
reply at the party's pincode. -/
theorem lookupStage_congr (o1 o2 : String → Option PincodeInfo)
    (pincode city state : String) (h : o1 pincode = o2 pincode) :
    lookupStage o1 pincode city state = lookupStage o2 pincode city state := by
  unfold lookupStage
  rw [h]

/-- C9: the pipeline is deterministic.  Its outcome is a pure function of
the input and of the collaborator's replies at the two request pincodes: two
runs on the same input with collaborators agreeing there produce the same
outcome — in particular the identical rejection, since every stage other
than stages 2 and 12 short-circuits on its first violation in a fixed
order. -/
theorem C9_determinism (inp : ShipmentInput)
    (o1 o2 : String → Option PincodeInfo)
    (h1 : o1 inp.ship_from_pincode = o2 inp.ship_from_pincode)
    (h2 : o1 inp.ship_to_pincode = o2 inp.ship_to_pincode) :
    createShipment inp o1 = createShipment inp o2 := by
  have hf : ∀ slug fp tp, finishShipment inp o1 slug fp tp =
      finishShipment inp o2 slug fp tp := by
    intro slug fp tp
    unfold finishShipment
    rw [lookupStage_congr o1 o2 _ _ _ h1, lookupStage_congr o1 o2 _ _ _ h2]
  unfold createShipment
  split
  · rfl
  · split
    · rfl
    · split
      · rfl
      · split
        · rfl
        · split
          · rfl
          · split
            · rfl
            · split
              · rfl
              · apply hf

/-- Witness for `C9_determinism`: the always-failing collaborator and one
that knows only the unused pincode 999999 agree on `baseInput`'s pincodes,
so the two runs coincide. -/
theorem C9_determinism_witness :
    createShipment baseInput noOracle = createShipment baseInput otherOracle :=
  C9_determinism baseInput noOracle otherOracle (by decide) (by decide)

/-! ### Claim C10 -/

/-- C10: with a strictly negative parcel weight and all three dimensions 0,
the parcel-validation stage does not reject (its guard sees no supplied
dimension, and the weight only against the 300 kg cap), even though
`validate_parcel_dimensions` itself would reject this weight; the
chargeable-weight stage passes the negative weight through unchanged, and
any assembled record carries it as the charged weight. -/
theorem C10_negative_weight_bypass (inp : ShipmentInput)
    (o : String → Option PincodeInfo) (hw : inp.parcel_weight_kg < 0)
    (hl : inp.parcel_length_cm = 0) (hwid : inp.parcel_width_cm = 0)
    (hh : inp.parcel_height_cm = 0) :
    parcelStage inp = none ∧
    validate_parcel_dimensions inp.parcel_weight_kg inp.parcel_length_cm
      inp.parcel_width_cm inp.parcel_height_cm = some .weightNotPositive ∧
    chargeableStage inp = inp.parcel_weight_kg ∧
    (∀ q, (createShipment inp o).chargedWeight = some q →
      q = inp.parcel_weight_kg) := by
  have hstage : chargeableStage inp = inp.parcel_weight_kg := by
    unfold chargeableStage
    rw [if_neg]
    rintro ⟨hc, -, -⟩
    rw [hl] at hc
    exact lt_irrefl 0 hc
  refine ⟨?_, ?_, hstage, ?_⟩
  · unfold parcelStage
    rw [if_neg, if_neg]
    · rw [MAX_WEIGHT_KG]
      intro hgt
      linarith
    · rw [hl, hwid, hh]
      rintro (hc | hc | hc) <;> exact lt_irrefl 0 hc
  · unfold validate_parcel_dimensions
    rw [if_pos (le_of_lt hw)]
  · intro q hq
    cases hc : createShipment inp o with
    | rejected e => rw [hc] at hq; simp [Outcome.chargedWeight] at hq
    | assembled r =>
      obtain ⟨-, -, -, -, -, h6, -⟩ := createShipment_assembled_inv inp o r hc
      rw [hc] at hq
      simp only [Outcome.chargedWeight, Option.some.injEq] at hq
      rw [← hq, h6, hstage]

/-- Witness for `C10_negative_weight_bypass`: weight −5 kg, no dimensions:
no parcel rejection, even though the validator itself would reject, and the
assembled record's charged weight is −5. -/
theorem C10_negative_weight_bypass_witness :
    parcelStage negWeightInput = none ∧
    validate_parcel_dimensions negWeightInput.parcel_weight_kg
      negWeightInput.parcel_length_cm negWeightInput.parcel_width_cm
      negWeightInput.parcel_height_cm = some .weightNotPositive ∧
    (-5 : ℚ) = negWeightInput.parcel_weight_kg :=
  ⟨(C10_negative_weight_bypass negWeightInput noOracle (by decide) rfl rfl
      rfl).1,
   (C10_negative_weight_bypass negWeightInput noOracle (by decide) rfl rfl
      rfl).2.1,
   (C10_negative_weight_bypass negWeightInput noOracle (by decide) rfl rfl
      rfl).2.2.2 (-5) (by decide)⟩
